import Mathlib

/-!
Shallow embedding of the agentuity/agent-changelog webhook pipeline.

The embedding follows the TypeScript sources:
* `generateEventKey` and `verifyGitHubWebhook` from src/utils (github.ts / events.ts);
* `callDevinAPI` from src/utils/devin.ts;
* the `ChangelogAgent` orchestrator from src/agents (the KV-store variant).

External collaborators (the octokit signature check, JSON body parsing, the
LLM classification and prompt-generation calls, the KV store transport and
the Devin fetch) are modelled as oracle outcomes passed in as data: the
embedding fixes only what the repository code itself does with those
outcomes.  The KV store content is threaded explicitly as the list of keys
present, and a `Trace` records which external stages each run invoked.
-/

namespace AgentChangelog

/-- Process environment as read by the agent: `AGENTUITY_ENVIRONMENT` and
`GITHUB_WEBHOOK_SECRET` (absent variables are `none`). -/
structure Env where
  environment : Option String
  webhookSecret : Option String
  deriving Repr, DecidableEq

/-- Inbound request: the `x-hub-signature-256` header (if present) and the
raw body text. -/
structure Request where
  signatureHeader : Option String
  bodyText : String
  deriving Repr, DecidableEq

/-- Outcome of the external octokit `verify(secret, payload, signature)`
call: it either returns a boolean or throws. -/
inductive VerifyOutcome where
  | ok (valid : Bool)
  | threw
  deriving Repr, DecidableEq

/-- Result shape of `verifyGitHubWebhook`: `{ success, message? }`. -/
structure VerificationResult where
  success : Bool
  message : Option String
  deriving Repr, DecidableEq

/-- Embedding of `verifyGitHubWebhook` (src/utils/github.ts): missing
header, then missing secret, then the octokit verification call inside a
try/catch. -/
def verifyGitHubWebhook (env : Env) (req : Request) (vo : VerifyOutcome) :
    VerificationResult :=
  match req.signatureHeader with
  | none => ⟨false, some "Missing X-Hub-Signature-256 header"⟩
  | some _ =>
    match env.webhookSecret with
    | none =>
      ⟨false, some "Server configuration error: webhook secret not configured"⟩
    | some _ =>
      match vo with
      | .threw => ⟨false, some "Error verifying webhook signature"⟩
      | .ok false => ⟨false, some "Invalid webhook signature"⟩
      | .ok true => ⟨true, none⟩

/-- Embedding of `generateEventKey` (src/utils/events.ts): the template
literal joining the prefix changelog-event and the three fields with
colons. -/
def generateEventKey (repositoryName version eventType : String) : String :=
  "changelog-event:" ++ repositoryName ++ ":" ++ version ++ ":" ++ eventType

/-- The zod enum `eventType: z.enum(["release", "tag", "other"])`. -/
inductive EventType where
  | release
  | tag
  | other
  deriving Repr, DecidableEq

/-- The string the zod enum value denotes. -/
def EventType.str : EventType → String
  | .release => "release"
  | .tag => "tag"
  | .other => "other"

/-- The `WebhookAnalysisSchema` object produced by the classification step. -/
structure Analysis where
  isReleaseOrTagEvent : Bool
  eventType : EventType
  repositoryName : String
  version : String
  reasoning : String
  isSupported : Bool
  deriving Repr, DecidableEq

/-- The event key the orchestrator derives from an analysis:
`generateEventKey(analysis.repositoryName, analysis.version, analysis.eventType)`. -/
def eventKeyOf (a : Analysis) : String :=
  generateEventKey a.repositoryName a.version a.eventType.str

/-- A `fetch` response as `callDevinAPI` consumes it: `ok`, `status`, the
body text (read on the error path), and the outcome of `response.json()`
projected to its `sessionId` field (`none` when the field is missing). -/
structure FetchResponse where
  ok : Bool
  status : Nat
  bodyText : String
  jsonSessionId : Except String (Option String)
  deriving Repr

/-- Outcome of the external `fetch` call itself: a response, or a thrown
transport error. -/
inductive FetchOutcome where
  | threw (msg : String)
  | resp (r : FetchResponse)
  deriving Repr

/-- Return value of `callDevinAPI`: the sessionId and status pair. -/
structure DevinResult where
  sessionId : String
  status : Nat
  deriving Repr, DecidableEq

/-- Embedding of the expression data.sessionId or-else unknown: a missing
or empty (falsy) session id becomes the sentinel "unknown". -/
def sessionHandleOf (s : Option String) : String :=
  match s with
  | none => "unknown"
  | some v => if v = "" then "unknown" else v

/-- Embedding of `callDevinAPI` (src/utils/devin.ts): on a non-ok response
it throws `Devin API returned <status>: <body>`; on success it extracts
`data.sessionId || "unknown"`; the surrounding try/catch rethrows any
error as `Failed to call Devin API: <message>`. -/
def callDevinAPI (f : FetchOutcome) : Except String DevinResult :=
  let inner : Except String DevinResult :=
    match f with
    | .threw m => .error m
    | .resp r =>
      if r.ok then
        match r.jsonSessionId with
        | .error m => .error m
        | .ok sid => .ok ⟨sessionHandleOf sid, r.status⟩
      else
        .error ("Devin API returned " ++ toString r.status ++ ": " ++ r.bodyText)
  match inner with
  | .error m => .error ("Failed to call Devin API: " ++ m)
  | .ok d => .ok d

/-- Oracle outcomes for one pipeline invocation: everything the agent code
receives from its external collaborators.  `kvGetThrows` / `kvSetThrows`
carry the thrown message when the corresponding KV call fails. -/
structure Oracles where
  verifyOutcome : VerifyOutcome
  parseOutcome : Except String (Option String)
  classifyOutcome : Except String Analysis
  kvGetThrows : Option String
  synthOutcome : Except String String
  fetchOutcome : FetchOutcome
  kvSetThrows : Option String
  deriving Repr

/-- The JSON responses the agent returns via `resp.json`, one constructor
per call site. -/
inductive Response where
  | errorResp (message : String)
  | ignoredResp (reason : String)
  | alreadyProcessedResp (repository eventType version message : String)
  | successResp (repository eventType version devinSessionId : String)
  deriving Repr, DecidableEq

/-- The `status` field of a response. -/
def Response.status : Response → String
  | .errorResp _ => "error"
  | .ignoredResp _ => "ignored"
  | .alreadyProcessedResp _ _ _ _ => "already_processed"
  | .successResp _ _ _ _ => "success"

/-- Which external stages a run invoked (an invocation counts even when the
call throws). -/
structure Trace where
  classifierCalled : Bool
  kvGetCalled : Bool
  dispatchCalled : Bool
  kvSetCalled : Bool
  deriving Repr, DecidableEq

/-- The signature gate at the top of `ChangelogAgent`: skipped entirely when
`AGENTUITY_ENVIRONMENT === "development"`, otherwise an unsuccessful
`verifyGitHubWebhook` result yields the error message
`verificationResult.message || "Unknown verification error"`. -/
def verificationGate (env : Env) (req : Request) (vo : VerifyOutcome) :
    Except String Unit :=
  if env.environment = some "development" then .ok ()
  else
    let vr := verifyGitHubWebhook env req vo
    if vr.success then .ok ()
    else .error (vr.message.getD "Unknown verification error")

/-- Steps 2-3 of `ChangelogAgent` after the idempotency lookup came back
negative: the published-action check for release events, prompt synthesis
(`generateText`), the `callDevinAPI` dispatch, and the `ctx.kv.set` write
of the processed-event record.  A thrown error propagates (to the
top-level catch) as an error response with the thrown message. -/
def postLookupStage (a : Analysis) (action : Option String) (o : Oracles)
    (store : List String) : Response × List String × Trace :=
  if a.eventType = .release ∧ action ≠ some "published" then
    (.ignoredResp "Only published releases are processed",
      store, ⟨true, true, false, false⟩)
  else
    match o.synthOutcome with
    | .error m => (.errorResp m, store, ⟨true, true, false, false⟩)
    | .ok _devinPrompt =>
      match callDevinAPI o.fetchOutcome with
      | .error m => (.errorResp m, store, ⟨true, true, true, false⟩)
      | .ok devinResponse =>
        match o.kvSetThrows with
        | some m => (.errorResp m, store, ⟨true, true, true, true⟩)
        | none =>
          (.successResp a.repositoryName a.eventType.str a.version
              devinResponse.sessionId,
            eventKeyOf a :: store, ⟨true, true, true, true⟩)

/-- Stage of `ChangelogAgent` from the point where the analysis exists: the
ignore short-circuit on `!isReleaseOrTagEvent || !isSupported`, the
`ctx.kv.get` idempotency lookup, and the already-processed short-circuit;
otherwise control continues into `postLookupStage`. -/
def classifiedStage (a : Analysis) (action : Option String) (o : Oracles)
    (store : List String) : Response × List String × Trace :=
  if !a.isReleaseOrTagEvent || !a.isSupported then
    (.ignoredResp a.reasoning, store, ⟨true, false, false, false⟩)
  else
    match o.kvGetThrows with
    | some m => (.errorResp m, store, ⟨true, true, false, false⟩)
    | none =>
      if store.contains (eventKeyOf a) then
        (.alreadyProcessedResp a.repositoryName a.eventType.str a.version
            "This event has already been processed",
          store, ⟨true, true, false, false⟩)
      else postLookupStage a action o store

/-- Embedding of the `ChangelogAgent` orchestrator (the KV-store variant):
signature gate (skipped in development mode), body parse
(`req.data.object`, yielding `payload?.action`), classification
(`generateObject`), then `classifiedStage`.  Any thrown oracle error
reaches the single top-level catch, which returns an `error` response with
the thrown message.  Returns the response, the resulting KV-store key set,
and the invocation trace. -/
def runChangelogAgent (env : Env) (req : Request) (o : Oracles)
    (store : List String) : Response × List String × Trace :=
  match verificationGate env req o.verifyOutcome with
  | .error m => (.errorResp m, store, ⟨false, false, false, false⟩)
  | .ok _ =>
    match o.parseOutcome with
    | .error m => (.errorResp m, store, ⟨false, false, false, false⟩)
    | .ok action =>
      match o.classifyOutcome with
      | .error m => (.errorResp m, store, ⟨true, false, false, false⟩)
      | .ok analysis => classifiedStage analysis action o store

/-! ### Evaluation lemmas for the orchestrator stages -/

theorem run_reaches_classified (env : Env) (req : Request) (o : Oracles)
    (store : List String) (a : Analysis) (act : Option String)
    (hgate : verificationGate env req o.verifyOutcome = Except.ok ())
    (hparse : o.parseOutcome = Except.ok act)
    (hcls : o.classifyOutcome = Except.ok a) :
    runChangelogAgent env req o store = classifiedStage a act o store := by
  simp only [runChangelogAgent, hgate, hparse, hcls]

theorem classifiedStage_ignored (a : Analysis) (act : Option String)
    (o : Oracles) (store : List String)
    (h : a.isReleaseOrTagEvent = false ∨ a.isSupported = false) :
    classifiedStage a act o store =
      (.ignoredResp a.reasoning, store, ⟨true, false, false, false⟩) := by
  rcases h with h | h <;> simp [classifiedStage, h]

theorem classifiedStage_already (a : Analysis) (act : Option String)
    (o : Oracles) (store : List String)
    (h1 : a.isReleaseOrTagEvent = true) (h2 : a.isSupported = true)
    (hget : o.kvGetThrows = none)
    (hmem : store.contains (eventKeyOf a) = true) :
    classifiedStage a act o store =
      (.alreadyProcessedResp a.repositoryName a.eventType.str a.version
          "This event has already been processed",
        store, ⟨true, true, false, false⟩) := by
  have hmem2 : eventKeyOf a ∈ store := by simpa using hmem
  simp [classifiedStage, h1, h2, hget, hmem2]

theorem classifiedStage_fresh (a : Analysis) (act : Option String)
    (o : Oracles) (store : List String)
    (h1 : a.isReleaseOrTagEvent = true) (h2 : a.isSupported = true)
    (hget : o.kvGetThrows = none)
    (hmem : store.contains (eventKeyOf a) = false) :
    classifiedStage a act o store = postLookupStage a act o store := by
  have hmem2 : eventKeyOf a ∉ store := by simpa using hmem
  simp [classifiedStage, h1, h2, hget, hmem2]

theorem postLookupStage_published (a : Analysis) (act : Option String)
    (o : Oracles) (store : List String)
    (hpub : a.eventType = .release → act = some "published") :
    postLookupStage a act o store =
      (match o.synthOutcome with
        | .error m => (.errorResp m, store, ⟨true, true, false, false⟩)
        | .ok _ =>
          match callDevinAPI o.fetchOutcome with
          | .error m => (.errorResp m, store, ⟨true, true, true, false⟩)
          | .ok devinResponse =>
            match o.kvSetThrows with
            | some m => (.errorResp m, store, ⟨true, true, true, true⟩)
            | none =>
              (.successResp a.repositoryName a.eventType.str a.version
                  devinResponse.sessionId,
                eventKeyOf a :: store, ⟨true, true, true, true⟩)) := by
  unfold postLookupStage
  rw [if_neg]
  rintro ⟨he, hne⟩
  exact hne (hpub he)

/-! ### Concrete fixtures used by witnesses and counterexamples -/

/-- A non-development deployment with the webhook secret configured. -/
def prodEnv : Env := ⟨some "production", some "whsec"⟩

/-- A request carrying a signature header. -/
def signedReq : Request := ⟨some "sha256=abc", "payload-body"⟩

/-- An actionable, supported published-release analysis (the sdk-js v1.4.0
scenario of the spec). -/
def releaseAnalysis : Analysis :=
  ⟨true, .release, "sdk-js", "v1.4.0", "published release of sdk-js", true⟩

/-- A fetch response that succeeds and carries a session id. -/
def okFetch : FetchOutcome := .resp ⟨true, 200, "", .ok (some "devin-123")⟩

/-- Oracles for a fully successful pipeline run on `releaseAnalysis`. -/
def happyOracles : Oracles :=
  ⟨.ok true, .ok (some "published"), .ok releaseAnalysis, none,
    .ok "prompt", okFetch, none⟩

/-! ### Claims -/

/-- C5: EventKey derivation is a pure function of exactly
(repositoryName, version, eventType): two ClassifiedEvents agreeing on
those three fields get the identical key, regardless of every other field,
and the key has the shape
`changelog-event:<repositoryName>:<version>:<eventType>`. -/
theorem c5_eventKey_pure (a b : Analysis)
    (hr : a.repositoryName = b.repositoryName)
    (hv : a.version = b.version)
    (he : a.eventType = b.eventType) :
    eventKeyOf a = eventKeyOf b ∧
    eventKeyOf a =
      "changelog-event:" ++ a.repositoryName ++ ":" ++ a.version ++ ":"
        ++ a.eventType.str := by
  refine ⟨?_, rfl⟩
  simp [eventKeyOf, generateEventKey, hr, hv, he]

/-- Witness for C5 at the spec scenario: two analyses sharing
(sdk-js, v1.4.0, release) but differing in rationale and support flag get
the same key, of the documented shape. -/
theorem c5_eventKey_pure_witness :
    eventKeyOf releaseAnalysis =
      eventKeyOf ⟨true, .release, "sdk-js", "v1.4.0", "another rationale", false⟩ ∧
    eventKeyOf releaseAnalysis =
      "changelog-event:" ++ "sdk-js" ++ ":" ++ "v1.4.0" ++ ":"
        ++ EventType.str .release :=
  c5_eventKey_pure releaseAnalysis
    ⟨true, .release, "sdk-js", "v1.4.0", "another rationale", false⟩ rfl rfl rfl

/-- C10: generateEventKey is not injective on the triple: two distinct
triples whose fields contain the `:` separator produce the same key
string, so distinct events can collide on the dedup identity. -/
theorem c10_eventKey_collision :
    generateEventKey "a:b" "c" "release" = generateEventKey "a" "b:c" "release" ∧
    ("a:b", "c", "release") ≠ (("a", "b:c", "release") : String × String × String) := by
  exact ⟨by decide, by decide⟩

/-- C6: every pipeline invocation returns exactly one structured response
whose status is success, ignored, already_processed or error; the
embedding is total, mirroring the single top-level try/catch that converts
every thrown error into the error response. -/
theorem c6_status_total (env : Env) (req : Request) (o : Oracles)
    (store : List String) :
    (runChangelogAgent env req o store).1.status ∈
      (["success", "ignored", "already_processed", "error"] : List String) := by
  obtain ⟨r, s, t⟩ := runChangelogAgent env req o store
  cases r <;> simp [Response.status]

/-- C7: a classified event with isSupported = false or
isReleaseOrTagEvent = false yields the ignored response carrying the
classifier rationale, with no idempotency-store lookup (kvGetCalled is
false) and the store unchanged. -/
theorem c7_ignored_before_lookup (env : Env) (req : Request) (o : Oracles)
    (store : List String) (a : Analysis) (act : Option String)
    (hgate : verificationGate env req o.verifyOutcome = Except.ok ())
    (hparse : o.parseOutcome = Except.ok act)
    (hcls : o.classifyOutcome = Except.ok a)
    (h : a.isReleaseOrTagEvent = false ∨ a.isSupported = false) :
    runChangelogAgent env req o store =
      (.ignoredResp a.reasoning, store, ⟨true, false, false, false⟩) := by
  rw [run_reaches_classified env req o store a act hgate hparse hcls]
  exact classifiedStage_ignored a act o store h

/-- Witness for C7: a supported=false analysis short-circuits to ignored
with no KV lookup. -/
theorem c7_ignored_before_lookup_witness :
    runChangelogAgent prodEnv signedReq
      ⟨.ok true, .ok none,
        .ok ⟨true, .release, "other-repo", "v1", "repository not supported", false⟩,
        none, .ok "p", okFetch, none⟩ [] =
      (.ignoredResp "repository not supported", [], ⟨true, false, false, false⟩) :=
  c7_ignored_before_lookup prodEnv signedReq _ []
    ⟨true, .release, "other-repo", "v1", "repository not supported", false⟩
    none rfl rfl rfl (Or.inr rfl)

/-- C3 counterexample: the claim quantifies over every inbound request, but
when AGENTUITY_ENVIRONMENT is "development" the agent skips signature
verification entirely, so a request with no signature header reaches the
classifier and the response is not an error. -/
theorem c3_counterexample :
    (runChangelogAgent ⟨some "development", none⟩ ⟨none, "body"⟩
        ⟨.ok false, .ok none, .ok ⟨false, .other, "", "", "not a release", false⟩,
          none, .error "unused", .threw "unused", none⟩ []).1.status ≠ "error" ∧
    (runChangelogAgent ⟨some "development", none⟩ ⟨none, "body"⟩
        ⟨.ok false, .ok none, .ok ⟨false, .other, "", "", "not a release", false⟩,
          none, .error "unused", .threw "unused", none⟩ []).2.2.classifierCalled
      = true := by
  exact ⟨by decide, by decide⟩

/-- C3 (amended): when the development bypass is not active
(AGENTUITY_ENVIRONMENT is not "development"), every request whose
signature header is absent or whose signature fails verification yields an
error response and the classifier is never reached. -/
theorem c3_signature_gate (env : Env) (req : Request) (o : Oracles)
    (store : List String)
    (hdev : env.environment ≠ some "development")
    (hbad : req.signatureHeader = none ∨ o.verifyOutcome = .ok false) :
    (runChangelogAgent env req o store).1.status = "error" ∧
    (runChangelogAgent env req o store).2.2.classifierCalled = false := by
  have hfail : (verifyGitHubWebhook env req o.verifyOutcome).success = false := by
    rcases hbad with h | h
    · simp [verifyGitHubWebhook, h]
    · rcases hs : req.signatureHeader with _ | s
      · simp [verifyGitHubWebhook, hs]
      · rcases hw : env.webhookSecret with _ | w
        · simp [verifyGitHubWebhook, hs, hw]
        · simp [verifyGitHubWebhook, hs, hw, h]
  have hgate : verificationGate env req o.verifyOutcome =
      .error ((verifyGitHubWebhook env req o.verifyOutcome).message.getD
        "Unknown verification error") := by
    simp [verificationGate, hdev, hfail]
  simp [runChangelogAgent, hgate, Response.status]

/-- Witness for C3 (amended): a production deployment rejects a request
with no signature header before classification. -/
theorem c3_signature_gate_witness :
    (runChangelogAgent prodEnv ⟨none, "body"⟩ happyOracles []).1.status
      = "error" ∧
    (runChangelogAgent prodEnv ⟨none, "body"⟩ happyOracles
        []).2.2.classifierCalled = false :=
  c3_signature_gate prodEnv ⟨none, "body"⟩ happyOracles []
    (by decide) (Or.inl rfl)

/-- C8: a release-kind classified event whose payload action is not
"published", with its key not yet recorded, yields the ignored response
and the dispatcher is never invoked (dispatchCalled is false, store
unchanged). -/
theorem c8_nonpublished_release_ignored (env : Env) (req : Request)
    (o : Oracles) (store : List String) (a : Analysis) (act : Option String)
    (hgate : verificationGate env req o.verifyOutcome = Except.ok ())
    (hparse : o.parseOutcome = Except.ok act)
    (hcls : o.classifyOutcome = Except.ok a)
    (h1 : a.isReleaseOrTagEvent = true) (h2 : a.isSupported = true)
    (hget : o.kvGetThrows = none)
    (hmem : store.contains (eventKeyOf a) = false)
    (he : a.eventType = .release)
    (ha : act ≠ some "published") :
    runChangelogAgent env req o store =
      (.ignoredResp "Only published releases are processed",
        store, ⟨true, true, false, false⟩) := by
  rw [run_reaches_classified env req o store a act hgate hparse hcls,
    classifiedStage_fresh a act o store h1 h2 hget hmem]
  unfold postLookupStage
  rw [if_pos ⟨he, ha⟩]

/-- Witness for C8: a release delivery whose action is "created" is
ignored without dispatch. -/
theorem c8_nonpublished_release_ignored_witness :
    runChangelogAgent prodEnv signedReq
      ⟨.ok true, .ok (some "created"), .ok releaseAnalysis, none,
        .ok "p", okFetch, none⟩ [] =
      (.ignoredResp "Only published releases are processed",
        [], ⟨true, true, false, false⟩) :=
  c8_nonpublished_release_ignored prodEnv signedReq _ [] releaseAnalysis
    (some "created") rfl rfl rfl rfl rfl rfl rfl rfl (by decide)

/-- C1 counterexample: on a run where dispatch succeeds but the subsequent
kv.set throws, the caller-visible response has status "error", not
"success" — the write failure escapes to the top-level catch rather than
being logged only. -/
theorem c1_counterexample :
    (runChangelogAgent prodEnv signedReq
        ⟨.ok true, .ok (some "published"), .ok releaseAnalysis, none,
          .ok "prompt", okFetch, some "kv write failed"⟩ []).1.status
      ≠ "success" ∧
    (runChangelogAgent prodEnv signedReq
        ⟨.ok true, .ok (some "published"), .ok releaseAnalysis, none,
          .ok "prompt", okFetch, some "kv write failed"⟩ []).1.status
      = "error" ∧
    (runChangelogAgent prodEnv signedReq
        ⟨.ok true, .ok (some "published"), .ok releaseAnalysis, none,
          .ok "prompt", okFetch, some "kv write failed"⟩
        []).2.2.dispatchCalled = true := by
  exact ⟨by decide, by decide, by decide⟩

/-- C1 (amended): if dispatch succeeds but the subsequent kv.set of the
ProcessedEventRecord throws, the error propagates to the top-level catch
and the pipeline returns an error response carrying the thrown message,
even though the task was already dispatched (dispatchCalled is true); no
record is written. -/
theorem c1_kvset_failure_is_error (env : Env) (req : Request) (o : Oracles)
    (store : List String) (a : Analysis) (act : Option String)
    (p : String) (d : DevinResult) (m : String)
    (hgate : verificationGate env req o.verifyOutcome = Except.ok ())
    (hparse : o.parseOutcome = Except.ok act)
    (hcls : o.classifyOutcome = Except.ok a)
    (h1 : a.isReleaseOrTagEvent = true) (h2 : a.isSupported = true)
    (hget : o.kvGetThrows = none)
    (hmem : store.contains (eventKeyOf a) = false)
    (hpub : a.eventType = .release → act = some "published")
    (hsyn : o.synthOutcome = Except.ok p)
    (hdev : callDevinAPI o.fetchOutcome = Except.ok d)
    (hset : o.kvSetThrows = some m) :
    runChangelogAgent env req o store =
      (.errorResp m, store, ⟨true, true, true, true⟩) := by
  rw [run_reaches_classified env req o store a act hgate hparse hcls,
    classifiedStage_fresh a act o store h1 h2 hget hmem,
    postLookupStage_published a act o store hpub, hsyn, hdev, hset]

/-- Witness for C1 (amended): concrete run where kv.set throws after a
successful dispatch; the response is the error carrying the thrown
message. -/
theorem c1_kvset_failure_is_error_witness :
    runChangelogAgent prodEnv signedReq
      ⟨.ok true, .ok (some "published"), .ok releaseAnalysis, none,
        .ok "prompt", okFetch, some "kv write failed"⟩ [] =
      (.errorResp "kv write failed", [], ⟨true, true, true, true⟩) :=
  c1_kvset_failure_is_error prodEnv signedReq _ [] releaseAnalysis
    (some "published") "prompt" ⟨"devin-123", 200⟩ "kv write failed"
    rfl rfl rfl rfl rfl rfl rfl (fun _ => rfl) rfl rfl rfl

/-- C4: a non-ok transport response makes callDevinAPI throw an error
carrying the status code and response body; the pipeline returns an error
response and the record write never happens (kvSetCalled is false, store
unchanged). -/
theorem c4_dispatch_error_no_record (env : Env) (req : Request) (o : Oracles)
    (store : List String) (a : Analysis) (act : Option String)
    (p : String) (r : FetchResponse)
    (hgate : verificationGate env req o.verifyOutcome = Except.ok ())
    (hparse : o.parseOutcome = Except.ok act)
    (hcls : o.classifyOutcome = Except.ok a)
    (h1 : a.isReleaseOrTagEvent = true) (h2 : a.isSupported = true)
    (hget : o.kvGetThrows = none)
    (hmem : store.contains (eventKeyOf a) = false)
    (hpub : a.eventType = .release → act = some "published")
    (hsyn : o.synthOutcome = Except.ok p)
    (hfetch : o.fetchOutcome = .resp r)
    (hok : r.ok = false) :
    callDevinAPI o.fetchOutcome =
      .error ("Failed to call Devin API: " ++
        ("Devin API returned " ++ toString r.status ++ ": " ++ r.bodyText)) ∧
    runChangelogAgent env req o store =
      (.errorResp ("Failed to call Devin API: " ++
          ("Devin API returned " ++ toString r.status ++ ": " ++ r.bodyText)),
        store, ⟨true, true, true, false⟩) := by
  have hcall : callDevinAPI o.fetchOutcome =
      .error ("Failed to call Devin API: " ++
        ("Devin API returned " ++ toString r.status ++ ": " ++ r.bodyText)) := by
    simp [callDevinAPI, hfetch, hok]
  refine ⟨hcall, ?_⟩
  rw [run_reaches_classified env req o store a act hgate hparse hcls,
    classifiedStage_fresh a act o store h1 h2 hget hmem,
    postLookupStage_published a act o store hpub, hsyn, hcall]

/-- Witness for C4: the dispatch endpoint answers HTTP 500; the pipeline
errors with the status code and body in the message and writes no
record. -/
theorem c4_dispatch_error_no_record_witness :
    callDevinAPI (Oracles.fetchOutcome
        ⟨.ok true, .ok (some "published"), .ok releaseAnalysis, none,
          .ok "prompt", .resp ⟨false, 500, "boom", .error "not json"⟩, none⟩) =
      .error ("Failed to call Devin API: " ++
        ("Devin API returned " ++ toString 500 ++ ": " ++ "boom")) ∧
    runChangelogAgent prodEnv signedReq
      ⟨.ok true, .ok (some "published"), .ok releaseAnalysis, none,
        .ok "prompt", .resp ⟨false, 500, "boom", .error "not json"⟩, none⟩ [] =
      (.errorResp ("Failed to call Devin API: " ++
          ("Devin API returned " ++ toString 500 ++ ": " ++ "boom")),
        [], ⟨true, true, true, false⟩) :=
  c4_dispatch_error_no_record prodEnv signedReq _ [] releaseAnalysis
    (some "published") "prompt" ⟨false, 500, "boom", .error "not json"⟩
    rfl rfl rfl rfl rfl rfl rfl (fun _ => rfl) rfl rfl rfl

/-- C9: a success transport response whose JSON body lacks a session id
makes callDevinAPI return the sentinel "unknown" handle together with the
actual status code, and the pipeline completes with a success response
carrying that sentinel. -/
theorem c9_unknown_session_sentinel (env : Env) (req : Request) (o : Oracles)
    (store : List String) (a : Analysis) (act : Option String)
    (p : String) (r : FetchResponse)
    (hgate : verificationGate env req o.verifyOutcome = Except.ok ())
    (hparse : o.parseOutcome = Except.ok act)
    (hcls : o.classifyOutcome = Except.ok a)
    (h1 : a.isReleaseOrTagEvent = true) (h2 : a.isSupported = true)
    (hget : o.kvGetThrows = none)
    (hmem : store.contains (eventKeyOf a) = false)
    (hpub : a.eventType = .release → act = some "published")
    (hsyn : o.synthOutcome = Except.ok p)
    (hfetch : o.fetchOutcome = .resp r)
    (hok : r.ok = true)
    (hjson : r.jsonSessionId = Except.ok none)
    (hset : o.kvSetThrows = none) :
    callDevinAPI o.fetchOutcome = .ok ⟨"unknown", r.status⟩ ∧
    runChangelogAgent env req o store =
      (.successResp a.repositoryName a.eventType.str a.version "unknown",
        eventKeyOf a :: store, ⟨true, true, true, true⟩) := by
  have hcall : callDevinAPI o.fetchOutcome = .ok ⟨"unknown", r.status⟩ := by
    simp [callDevinAPI, hfetch, hok, hjson, sessionHandleOf]
  refine ⟨hcall, ?_⟩
  rw [run_reaches_classified env req o store a act hgate hparse hcls,
    classifiedStage_fresh a act o store h1 h2 hget hmem,
    postLookupStage_published a act o store hpub, hsyn, hcall, hset]

/-- Witness for C9: a 200 response whose body has no sessionId field
completes the pipeline with devinSessionId "unknown". -/
theorem c9_unknown_session_sentinel_witness :
    callDevinAPI (Oracles.fetchOutcome
        ⟨.ok true, .ok (some "published"), .ok releaseAnalysis, none,
          .ok "prompt", .resp ⟨true, 200, "", .ok none⟩, none⟩) =
      .ok ⟨"unknown", 200⟩ ∧
    runChangelogAgent prodEnv signedReq
      ⟨.ok true, .ok (some "published"), .ok releaseAnalysis, none,
        .ok "prompt", .resp ⟨true, 200, "", .ok none⟩, none⟩ [] =
      (.successResp "sdk-js" "release" "v1.4.0" "unknown",
        eventKeyOf releaseAnalysis :: [], ⟨true, true, true, true⟩) :=
  c9_unknown_session_sentinel prodEnv signedReq _ [] releaseAnalysis
    (some "published") "prompt" ⟨true, 200, "", .ok none⟩
    rfl rfl rfl rfl rfl rfl rfl (fun _ => rfl) rfl rfl rfl rfl rfl

/-- C2: first conjunct — every classified event that passes the ignore
gate and whose key the (non-throwing) kv.get finds in the store is
reported already_processed, with the dispatcher never invoked and the
store not written, whatever the later-stage oracles hold (no hypothesis
constrains the action field, synthesis, dispatch or kv.set); second
conjunct — two successive deliveries of the same valid event yield
success then already_processed, with the dispatcher invoked on the first
run (dispatchCalled true) and not on the second (dispatchCalled and
kvSetCalled false, store unchanged). -/
theorem c2_idempotent_dedup :
    (∀ (env : Env) (req : Request) (o : Oracles) (store : List String)
        (a : Analysis) (act : Option String),
      verificationGate env req o.verifyOutcome = Except.ok () →
      o.parseOutcome = Except.ok act →
      o.classifyOutcome = Except.ok a →
      a.isReleaseOrTagEvent = true →
      a.isSupported = true →
      o.kvGetThrows = none →
      store.contains (eventKeyOf a) = true →
      runChangelogAgent env req o store =
        (.alreadyProcessedResp a.repositoryName a.eventType.str a.version
            "This event has already been processed",
          store, ⟨true, true, false, false⟩)) ∧
    (∀ (env : Env) (req : Request) (o : Oracles) (store : List String)
        (a : Analysis) (act : Option String) (p : String) (d : DevinResult),
      verificationGate env req o.verifyOutcome = Except.ok () →
      o.parseOutcome = Except.ok act →
      o.classifyOutcome = Except.ok a →
      a.isReleaseOrTagEvent = true →
      a.isSupported = true →
      o.kvGetThrows = none →
      store.contains (eventKeyOf a) = false →
      (a.eventType = .release → act = some "published") →
      o.synthOutcome = Except.ok p →
      callDevinAPI o.fetchOutcome = Except.ok d →
      o.kvSetThrows = none →
      runChangelogAgent env req o store =
        (.successResp a.repositoryName a.eventType.str a.version d.sessionId,
          eventKeyOf a :: store, ⟨true, true, true, true⟩) ∧
      runChangelogAgent env req o (eventKeyOf a :: store) =
        (.alreadyProcessedResp a.repositoryName a.eventType.str a.version
            "This event has already been processed",
          eventKeyOf a :: store, ⟨true, true, false, false⟩)) := by
  have hexists : ∀ (env : Env) (req : Request) (o : Oracles)
      (store : List String) (a : Analysis) (act : Option String),
      verificationGate env req o.verifyOutcome = Except.ok () →
      o.parseOutcome = Except.ok act →
      o.classifyOutcome = Except.ok a →
      a.isReleaseOrTagEvent = true →
      a.isSupported = true →
      o.kvGetThrows = none →
      store.contains (eventKeyOf a) = true →
      runChangelogAgent env req o store =
        (.alreadyProcessedResp a.repositoryName a.eventType.str a.version
            "This event has already been processed",
          store, ⟨true, true, false, false⟩) := by
    intro env req o store a act hgate hparse hcls h1 h2 hget hmem
    rw [run_reaches_classified env req o store a act hgate hparse hcls,
      classifiedStage_already a act o store h1 h2 hget hmem]
  refine ⟨hexists, ?_⟩
  intro env req o store a act p d hgate hparse hcls h1 h2 hget hmem hpub
    hsyn hdev hset
  refine ⟨?_, ?_⟩
  · rw [run_reaches_classified env req o store a act hgate hparse hcls,
      classifiedStage_fresh a act o store h1 h2 hget hmem,
      postLookupStage_published a act o store hpub, hsyn, hdev, hset]
  · exact hexists env req o (eventKeyOf a :: store) a act hgate hparse hcls
      h1 h2 hget (by simp)

/-- Witness for C2: a duplicate delivery of the sdk-js release with action
"created" and failing later-stage oracles is still reported
already_processed without dispatch (first conjunct); delivering the
published release against an empty store succeeds and records the key,
and re-delivering it against the resulting store is reported
already_processed without a second dispatch (second conjunct). -/
theorem c2_idempotent_dedup_witness :
    runChangelogAgent prodEnv signedReq
      ⟨.ok true, .ok (some "created"), .ok releaseAnalysis, none,
        .error "no synth", .threw "no fetch", some "kv down"⟩
      [eventKeyOf releaseAnalysis] =
      (.alreadyProcessedResp "sdk-js" "release" "v1.4.0"
          "This event has already been processed",
        [eventKeyOf releaseAnalysis], ⟨true, true, false, false⟩) ∧
    runChangelogAgent prodEnv signedReq happyOracles [] =
      (.successResp "sdk-js" "release" "v1.4.0" "devin-123",
        [eventKeyOf releaseAnalysis], ⟨true, true, true, true⟩) ∧
    runChangelogAgent prodEnv signedReq happyOracles
        [eventKeyOf releaseAnalysis] =
      (.alreadyProcessedResp "sdk-js" "release" "v1.4.0"
          "This event has already been processed",
        [eventKeyOf releaseAnalysis], ⟨true, true, false, false⟩) :=
  ⟨c2_idempotent_dedup.1 prodEnv signedReq
      ⟨.ok true, .ok (some "created"), .ok releaseAnalysis, none,
        .error "no synth", .threw "no fetch", some "kv down"⟩
      [eventKeyOf releaseAnalysis] releaseAnalysis (some "created")
      rfl rfl rfl rfl rfl rfl (by decide),
    (c2_idempotent_dedup.2 prodEnv signedReq happyOracles [] releaseAnalysis
      (some "published") "prompt" ⟨"devin-123", 200⟩
      rfl rfl rfl rfl rfl rfl rfl (fun _ => rfl) rfl rfl rfl).1,
    (c2_idempotent_dedup.2 prodEnv signedReq happyOracles [] releaseAnalysis
      (some "published") "prompt" ⟨"devin-123", 200⟩
      rfl rfl rfl rfl rfl rfl rfl (fun _ => rfl) rfl rfl rfl).2⟩

end AgentChangelog
